import Mathlib

/-!
Verification of the neuron-population core of `bindsnet/network/nodes/modules.py`:
the `Nodes` base class (construction, reset, state-dict restoration) and its two
concrete dynamics variants `IFNodes` and `LIFNodes`.  Tensors are embedded as a
shape together with a flat list of rational values plus the dtype and device
tags that the reset path threads through; the numeric kernels
(`F.if_update`, `F.lif_update`, `F.super_spike_update` from the out-of-scope
`functional` module) are treated as uninterpreted pure functions passed to
`forward` as parameters.
-/

namespace BindsNetSpec

/-- A tensor value: shape, flattened contents, and the dtype/device tags that
`torch.zeros(..., dtype=self.s.dtype, device=self.s.device)` preserves. -/
structure Tensor where
  shape : List Nat
  data : List ℚ
  dtype : String
  device : String

/-- Number of elements of a shape, `1` for the empty shape (the mathematical
product used by torch for element counts). -/
def prodList (l : List Nat) : Nat := l.foldl (· * ·) 1

/-- Python's `functools.reduce(mul, l)` with no initial value: the running
product seeded from the first element, and a `TypeError` (modelled as `none`)
on an empty iterable. -/
def reduceMul (l : List Nat) : Option Nat :=
  match l with
  | [] => none
  | x :: xs => some (xs.foldl (· * ·) x)

/-- `torch.FloatTensor()`: an empty 1-dimensional float32 CPU tensor. -/
def emptyFloatTensor : Tensor :=
  { shape := [0], data := [], dtype := "float32", device := "cpu" }

/-- `torch.zeros(*sh, dtype=dt, device=dev)`. -/
def zeros (sh : List Nat) (dt dev : String) : Tensor :=
  { shape := sh, data := List.replicate (prodList sh) 0, dtype := dt, device := dev }

/-- `torch.ones_like(t)`. -/
def onesLike (t : Tensor) : Tensor :=
  { shape := t.shape, data := List.replicate (prodList t.shape) 1
    dtype := t.dtype, device := t.device }

/-- Broadcast multiplication of a 0-dim scalar against a tensor
(`self.reset * torch.ones_like(self.s)`). -/
def scalarMul (c : ℚ) (t : Tensor) : Tensor :=
  { t with data := t.data.map (fun a => c * a) }

/-- A 0-dim `torch` parameter/tensor attribute: its value and whether it is
gradient-bearing (`requires_grad`). -/
structure Param where
  value : ℚ
  requiresGrad : Bool

/-- How `Nodes.__init__` can fail: the `assert self.n == reduce(mul, self.shape)`
(`shapeMismatch`), or Python's `reduce` applied to an empty iterable with no
initial value (`typeError`). -/
inductive ConstructError
  | shapeMismatch
  | typeError

/-- State owned by the `Nodes` base class: `self.dt`, the spike buffer
`self.s`, `self.n` and `self.shape` (`none` models Python `None`). -/
structure NodesState where
  dt : Option ℚ
  s : Tensor
  n : Option Nat
  shape : Option (List Nat)

/-- `Nodes.__init__(n, shape)`: registers an empty spike buffer, leaves both
`n` and `shape` unset when neither is given, derives the missing one otherwise,
and asserts `n == reduce(mul, shape)`. -/
def Nodes.init (n? : Option Nat) (shape? : Option (List Nat)) :
    Except ConstructError NodesState :=
  let base : NodesState := { dt := none, s := emptyFloatTensor, n := none, shape := none }
  match n?, shape? with
  | none, none => Except.ok base
  | none, some shape =>
      match reduceMul shape with
      | none => Except.error ConstructError.typeError
      | some p => Except.ok { base with n := some p, shape := some shape }
  | some n, none => Except.ok { base with n := some n, shape := some [n] }
  | some n, some shape =>
      match reduceMul shape with
      | none => Except.error ConstructError.typeError
      | some p =>
          if n = p then Except.ok { base with n := some n, shape := some shape }
          else Except.error ConstructError.shapeMismatch

/-- `Nodes.set_dt(dt)`. -/
def Nodes.set_dt (dt : ℚ) (st : NodesState) : NodesState := { st with dt := some dt }

/-- `Nodes.reset_(shape)`: a supplied shape replaces the stored one; if no
shape is known the call returns early; otherwise the spike buffer is
reallocated as zeros of the resolved shape, keeping its dtype and device. -/
def Nodes.reset_ (shape? : Option (List Nat)) (st : NodesState) : NodesState :=
  let st1 := match shape? with
    | some sh => { st with shape := some sh }
    | none => st
  match st1.shape with
  | none => st1
  | some sh => { st1 with s := zeros sh st1.s.dtype st1.s.device }

/-- State of an `IFNodes` layer: the base-class fields plus the reset-voltage,
threshold, lower-bound and scale parameters and the voltage buffer `self.v`. -/
structure IFState where
  base : NodesState
  reset : Param
  thresh : Param
  lbound : Param
  scale : Param
  v : Tensor

/-- `IFNodes.__init__`: base construction, then the `reset`/`thresh`/`lbound`
parameters (all created with `requires_grad=True`), the non-trainable `scale`
tensor, and an empty voltage buffer. -/
def IFNodes.init (n? : Option Nat) (shape? : Option (List Nat))
    (thresh : ℚ := -52) (reset : ℚ := -65) (lbound : ℚ := -100000)
    (scale : ℚ := 100) : Except ConstructError IFState :=
  match Nodes.init n? shape? with
  | Except.error e => Except.error e
  | Except.ok b =>
      Except.ok
        { base := b
          reset := { value := reset, requiresGrad := true }
          thresh := { value := thresh, requiresGrad := true }
          lbound := { value := lbound, requiresGrad := true }
          scale := { value := scale, requiresGrad := false }
          v := emptyFloatTensor }

/-- `IFNodes.forward(x)` with the `functional` kernels `F.if_update` and
`F.super_spike_update` as uninterpreted pure functions: update the voltage,
then derive spikes and post-spike voltage, retaining both. -/
def IFNodes.forward (if_update : Tensor → Tensor → Tensor)
    (super_spike_update : Tensor → Param → Param → Param → Param → Tensor × Tensor)
    (x : Tensor) (st : IFState) : Tensor × IFState :=
  let v1 := if_update x st.v
  let p := super_spike_update v1 st.thresh st.reset st.lbound st.scale
  (p.1, { st with v := p.2, base := { st.base with s := p.1 } })

/-- `IFNodes.reset_(shape)`: base reset, then
`self.v = self.reset * torch.ones_like(self.s)`. -/
def IFNodes.reset_ (shape? : Option (List Nat)) (st : IFState) : IFState :=
  let b := Nodes.reset_ shape? st.base
  { st with base := b, v := scalarMul st.reset.value (onesLike b.s) }

/-- State of a `LIFNodes` layer: the `IFNodes` parameter set plus the resting
voltage and the decay time constant. -/
structure LIFState where
  base : NodesState
  reset : Param
  thresh : Param
  lbound : Param
  rest : Param
  tc_decay : Param
  scale : Param
  v : Tensor

/-- `LIFNodes.__init__`: like `IFNodes.__init__` with the additional `rest`
and `tc_decay` parameters; every `Parameter(...)` is created without an
explicit `requires_grad`, whose `torch.nn.Parameter` default is `True`. -/
def LIFNodes.init (n? : Option Nat) (shape? : Option (List Nat))
    (thresh : ℚ := -52) (reset : ℚ := -65) (lbound : ℚ := -100000)
    (rest : ℚ := -65) (tc_decay : ℚ := 100) (scale : ℚ := 100) :
    Except ConstructError LIFState :=
  match Nodes.init n? shape? with
  | Except.error e => Except.error e
  | Except.ok b =>
      Except.ok
        { base := b
          reset := { value := reset, requiresGrad := true }
          thresh := { value := thresh, requiresGrad := true }
          lbound := { value := lbound, requiresGrad := true }
          rest := { value := rest, requiresGrad := true }
          tc_decay := { value := tc_decay, requiresGrad := true }
          scale := { value := scale, requiresGrad := false }
          v := emptyFloatTensor }

/-- `LIFNodes.forward(x)` with `F.lif_update` and `F.super_spike_update` as
uninterpreted pure functions. -/
def LIFNodes.forward (lif_update : Tensor → Tensor → Param → Param → Tensor)
    (super_spike_update : Tensor → Param → Param → Param → Param → Tensor × Tensor)
    (x : Tensor) (st : LIFState) : Tensor × LIFState :=
  let v1 := lif_update x st.v st.tc_decay st.rest
  let p := super_spike_update v1 st.thresh st.reset st.lbound st.scale
  (p.1, { st with v := p.2, base := { st.base with s := p.1 } })

/-- `LIFNodes.reset_(shape)`: base reset, then
`self.v = self.reset * torch.ones_like(self.s)` (the reset voltage, not the
resting voltage). -/
def LIFNodes.reset_ (shape? : Option (List Nat)) (st : LIFState) : LIFState :=
  let b := Nodes.reset_ shape? st.base
  { st with base := b, v := scalarMul st.reset.value (onesLike b.s) }

/-- A persisted state dict: an association of names to tensors.
`lookupKey` is `state_dict[key]` returning `none` on a `KeyError`. -/
def lookupKey (sd : List (String × Tensor)) (k : String) : Option Tensor :=
  match sd with
  | [] => none
  | (k', t) :: rest => if k' = k then some t else lookupKey rest k

/-- How state restoration can fail: `missingState` is the `KeyError` from
`state_dict[prefix + "s"]` in `Nodes._load_from_state_dict`; the others are
surfaced by the default attribute-by-attribute load. -/
inductive LoadError
  | missingState
  | missingEntry
  | sizeMismatch

/-- Modelled from the spec: copying a persisted 0-dim parameter entry into a
stored parameter during the default load (absent entries leave it be). -/
def copyParam (sd : List (String × Tensor)) (k : String) (p : Param) : Param :=
  match lookupKey sd k with
  | some t => { p with value := t.data.headD p.value }
  | none => p

/-- Modelled from the spec: the default attribute-by-attribute restoration
performed by `torch.nn.Module._load_from_state_dict` (outside this
repository's source) — each persisted buffer entry is copied into the
like-named buffer, failing when a buffer entry is absent or when its shape
does not match the target buffer's shape; parameter entries are copied when
present. -/
def defaultLoad (sd : List (String × Tensor)) (pfx : String) (st : IFState) :
    Except LoadError IFState :=
  match lookupKey sd (pfx ++ "s"), lookupKey sd (pfx ++ "v") with
  | some ts, some tv =>
      if ts.shape = st.base.s.shape ∧ tv.shape = st.v.shape then
        Except.ok
          { st with
            base := { st.base with s := ts }
            v := tv
            reset := copyParam sd (pfx ++ "reset") st.reset
            thresh := copyParam sd (pfx ++ "thresh") st.thresh
            lbound := copyParam sd (pfx ++ "lbound") st.lbound }
      else Except.error LoadError.sizeMismatch
  | _, _ => Except.error LoadError.missingEntry

/-- `Nodes._load_from_state_dict` as it runs on an `IFNodes` layer (the
`self.reset_` call dispatches to `IFNodes.reset_`): first resync the shape by
a full reset to the persisted spike tensor's shape — a `KeyError`
(`missingState`) when the `s` entry is absent — and only then run the default
attribute-by-attribute restoration. -/
def IFNodes.loadFromStateDict (sd : List (String × Tensor)) (pfx : String)
    (st : IFState) : Except LoadError IFState :=
  match lookupKey sd (pfx ++ "s") with
  | none => Except.error LoadError.missingState
  | some ts => defaultLoad sd pfx (IFNodes.reset_ (some ts.shape) st)

/-! ### Concrete states used by witnesses -/

/-- The state produced by `Nodes(n=4)`. -/
def nodesN4 : NodesState :=
  { dt := none, s := emptyFloatTensor, n := some 4, shape := some [4] }

/-- The state produced by `Nodes()` (deferred shape). -/
def nodesDeferred : NodesState :=
  { dt := none, s := emptyFloatTensor, n := none, shape := none }

/-- The state produced by `IFNodes()` (deferred shape, default parameters). -/
def ifDeferred : IFState :=
  { base := nodesDeferred
    reset := { value := -65, requiresGrad := true }
    thresh := { value := -52, requiresGrad := true }
    lbound := { value := -100000, requiresGrad := true }
    scale := { value := 100, requiresGrad := false }
    v := emptyFloatTensor }

/-- The state produced by `LIFNodes()` (deferred shape, default parameters). -/
def lifDeferred : LIFState :=
  { base := nodesDeferred
    reset := { value := -65, requiresGrad := true }
    thresh := { value := -52, requiresGrad := true }
    lbound := { value := -100000, requiresGrad := true }
    rest := { value := -65, requiresGrad := true }
    tc_decay := { value := 100, requiresGrad := true }
    scale := { value := 100, requiresGrad := false }
    v := emptyFloatTensor }

/-- A concrete persisted spike tensor of shape `[2]`. -/
def t2a : Tensor := { shape := [2], data := [0, 0], dtype := "float32", device := "cpu" }

/-! ### Helper lemmas -/

/-- On a nonempty list, Python's initial-less `reduce(mul, ·)` agrees with the
mathematical product. -/
theorem reduceMul_cons (x : Nat) (xs : List Nat) :
    reduceMul (x :: xs) = some (prodList (x :: xs)) := by
  simp [reduceMul, prodList, List.foldl_cons, Nat.one_mul]

/-- `reduceMul` only succeeds on nonempty lists, and then returns the product. -/
theorem prodList_of_reduceMul {l : List Nat} {p : Nat}
    (h : reduceMul l = some p) : prodList l = p := by
  cases l with
  | nil => simp [reduceMul] at h
  | cons x xs =>
      rw [reduceMul_cons] at h
      exact Option.some_injective _ h

/-! ### C1 -/

/-- C1 counterexample: constructing `Nodes(n=4)` and then calling
`reset_([2, 3])` stores shape `[2, 3]` but leaves `n = 4`, although
`product([2, 3]) = 6 ≠ 4`; so the stored neuron count is *not* updated to the
product of the new shape, and the invariant `n == product(shape)` breaks. -/
theorem claim1_counterexample :
    Nodes.init (some 4) none = Except.ok nodesN4 ∧
    (Nodes.reset_ (some [2, 3]) nodesN4).shape = some [2, 3] ∧
    (Nodes.reset_ (some [2, 3]) nodesN4).n = some 4 ∧
    prodList [2, 3] ≠ 4 :=
  ⟨rfl, rfl, rfl, by decide⟩

/-- C1 (amended): after construction the invariant `n == product(shape)`
holds whenever a shape is stored; `reset_` with a new shape replaces the
stored shape but leaves the stored neuron count `n` unchanged (it is *not*
updated to the product of the new shape), so the invariant survives a reshape
only when the new shape's product equals the prior `n`. -/
theorem claim1_amended_invariant (n? : Option Nat) (shape? : Option (List Nat))
    (st : NodesState) (h : Nodes.init n? shape? = Except.ok st) :
    (∀ sh, st.shape = some sh → st.n = some (prodList sh)) ∧
    ∀ S, (Nodes.reset_ (some S) st).shape = some S ∧
      (Nodes.reset_ (some S) st).n = st.n := by
  refine ⟨?_, fun S => ⟨rfl, rfl⟩⟩
  intro sh hsh
  cases n? with
  | none =>
      cases shape? with
      | none =>
          simp only [Nodes.init, Except.ok.injEq] at h
          subst h
          simp at hsh
      | some shape =>
          simp only [Nodes.init] at h
          split at h
          · simp at h
          · rename_i p hr
            simp only [Except.ok.injEq] at h
            subst h
            simp only [Option.some.injEq] at hsh
            subst hsh
            rw [prodList_of_reduceMul hr]
  | some n =>
      cases shape? with
      | none =>
          simp only [Nodes.init, Except.ok.injEq] at h
          subst h
          simp only [Option.some.injEq] at hsh
          subst hsh
          simp [prodList]
      | some shape =>
          simp only [Nodes.init] at h
          split at h
          · simp at h
          · rename_i p hr
            split at h
            · rename_i hnp
              simp only [Except.ok.injEq] at h
              subst h
              simp only [Option.some.injEq] at hsh
              subst hsh
              rw [prodList_of_reduceMul hr, hnp]
            · simp at h

/-- C1 amended witness: the amended statement at `Nodes(n=4)` and a reshape
to `[2, 3]`. -/
theorem claim1_amended_witness :
    nodesN4.n = some (prodList [4]) ∧
    (Nodes.reset_ (some [2, 3]) nodesN4).shape = some [2, 3] ∧
    (Nodes.reset_ (some [2, 3]) nodesN4).n = nodesN4.n :=
  ⟨(claim1_amended_invariant (some 4) none nodesN4 rfl).1 [4] rfl,
   ((claim1_amended_invariant (some 4) none nodesN4 rfl).2 [2, 3]).1,
   ((claim1_amended_invariant (some 4) none nodesN4 rfl).2 [2, 3]).2⟩

/-! ### C3 -/

/-- C3 counterexample: for the pair `n = 1`, `shape = []` we have
`n = product(shape) = 1`, yet construction does not succeed — the
initial-less `reduce(mul, shape)` in `Nodes.__init__` raises a `TypeError`
on the empty shape. -/
theorem claim3_counterexample :
    prodList [] = 1 ∧
    Nodes.init (some 1) (some ([] : List Nat)) =
      Except.error ConstructError.typeError :=
  ⟨rfl, rfl⟩

/-- C3 (amended): for nonempty shapes the claim holds as stated —
construction with both `n` and `shape` fails with `ShapeMismatch` exactly when
`n ≠ product(shape)` and otherwise succeeds storing the supplied shape;
supplying only `n`, only a nonempty `shape`, or neither always succeeds.  (The
empty shape instead raises a `TypeError` from `reduce`, per the
counterexample.) -/
theorem claim3_amended_construction (n x : Nat) (xs : List Nat) :
    Nodes.init (some n) (some (x :: xs)) =
      (if n = prodList (x :: xs)
       then Except.ok
         { dt := none, s := emptyFloatTensor, n := some n, shape := some (x :: xs) }
       else Except.error ConstructError.shapeMismatch) ∧
    Nodes.init (some n) none =
      Except.ok { dt := none, s := emptyFloatTensor, n := some n, shape := some [n] } ∧
    Nodes.init none (some (x :: xs)) =
      Except.ok { dt := none, s := emptyFloatTensor
                  n := some (prodList (x :: xs)), shape := some (x :: xs) } ∧
    Nodes.init none none =
      Except.ok { dt := none, s := emptyFloatTensor, n := none, shape := none } := by
  refine ⟨?_, rfl, ?_, rfl⟩
  · simp only [Nodes.init, reduceMul_cons]
  · simp only [Nodes.init, reduceMul_cons]

/-! ### C4 -/

/-- C4: for both dynamics models, after `reset_(S)` the spike buffer is an
all-zero tensor of shape `S` that keeps the prior buffer's dtype and device,
and the voltage buffer equals the reset voltage (for the leaky model the
`reset` parameter, not `rest`) broadcast to `S`. -/
theorem claim4_reset_buffers (stI : IFState) (stL : LIFState) (S : List Nat) :
    ((IFNodes.reset_ (some S) stI).base.s.shape = S ∧
     (IFNodes.reset_ (some S) stI).base.s.data = List.replicate (prodList S) 0 ∧
     (IFNodes.reset_ (some S) stI).base.s.dtype = stI.base.s.dtype ∧
     (IFNodes.reset_ (some S) stI).base.s.device = stI.base.s.device ∧
     (IFNodes.reset_ (some S) stI).v.shape = S ∧
     (IFNodes.reset_ (some S) stI).v.data =
       List.replicate (prodList S) stI.reset.value) ∧
    ((LIFNodes.reset_ (some S) stL).base.s.shape = S ∧
     (LIFNodes.reset_ (some S) stL).base.s.data = List.replicate (prodList S) 0 ∧
     (LIFNodes.reset_ (some S) stL).base.s.dtype = stL.base.s.dtype ∧
     (LIFNodes.reset_ (some S) stL).base.s.device = stL.base.s.device ∧
     (LIFNodes.reset_ (some S) stL).v.shape = S ∧
     (LIFNodes.reset_ (some S) stL).v.data =
       List.replicate (prodList S) stL.reset.value) := by
  refine ⟨⟨rfl, rfl, rfl, rfl, rfl, ?_⟩, ⟨rfl, rfl, rfl, rfl, rfl, ?_⟩⟩ <;>
    simp [IFNodes.reset_, LIFNodes.reset_, Nodes.reset_, zeros, onesLike,
      scalarMul, List.map_replicate, mul_one]

/-! ### C5 -/

/-- C5: on an uninitialized population with unknown shape (no stored shape,
buffers still the empty tensors), `reset_` with no shape argument is a no-op
for the base class and for both dynamics models: the whole state — spikes,
voltage, shape, n — is returned unchanged and no error is raised. -/
theorem claim5_uninitialized_reset_noop (st : NodesState) (stI : IFState)
    (stL : LIFState) (h : st.shape = none)
    (hI1 : stI.base.shape = none) (hI2 : stI.base.s = emptyFloatTensor)
    (hI3 : stI.v = emptyFloatTensor)
    (hL1 : stL.base.shape = none) (hL2 : stL.base.s = emptyFloatTensor)
    (hL3 : stL.v = emptyFloatTensor) :
    Nodes.reset_ none st = st ∧
    IFNodes.reset_ none stI = stI ∧
    LIFNodes.reset_ none stL = stL := by
  obtain ⟨dt, s, n, sh⟩ := st
  obtain ⟨⟨dtI, sI, nI, shI⟩, rI, tI, lI, scI, vI⟩ := stI
  obtain ⟨⟨dtL, sL, nL, shL⟩, rL, tL, lL, reL, tcL, scL, vL⟩ := stL
  dsimp only at h hI1 hI2 hI3 hL1 hL2 hL3
  subst h hI1 hI2 hI3 hL1 hL2 hL3
  exact ⟨rfl, rfl, rfl⟩

/-- C5 witness: the no-op on the freshly constructed deferred populations. -/
theorem claim5_witness :
    Nodes.reset_ none nodesDeferred = nodesDeferred ∧
    IFNodes.reset_ none ifDeferred = ifDeferred ∧
    LIFNodes.reset_ none lifDeferred = lifDeferred :=
  claim5_uninitialized_reset_noop nodesDeferred ifDeferred lifDeferred
    rfl rfl rfl rfl rfl rfl rfl

/-! ### C9 -/

/-- C9: reset is idempotent — for every shape `S` and for the base class and
both dynamics models, `reset_(S)` applied twice yields exactly the state of a
single `reset_(S)`. -/
theorem claim9_reset_idempotent (S : List Nat) (st : NodesState)
    (stI : IFState) (stL : LIFState) :
    Nodes.reset_ (some S) (Nodes.reset_ (some S) st) = Nodes.reset_ (some S) st ∧
    IFNodes.reset_ (some S) (IFNodes.reset_ (some S) stI) =
      IFNodes.reset_ (some S) stI ∧
    LIFNodes.reset_ (some S) (LIFNodes.reset_ (some S) stL) =
      LIFNodes.reset_ (some S) stL :=
  ⟨rfl, rfl, rfl⟩

/-! ### C7 -/

/-- C7: with the kernels as uninterpreted pure functions, each per-timestep
update first applies the model's voltage-update kernel to the input drive and
the previous voltage (with `tc_decay` and `rest` additionally passed for the
leaky model), then applies the shared spike-and-reset kernel to the new
voltage together with `thresh`, `reset`, `lbound` and `scale`; the returned
spike tensor is the kernel's spike output, and both the new voltage and the
new spikes are retained as the population's state. -/
theorem claim7_forward_two_kernels
    (if_update : Tensor → Tensor → Tensor)
    (lif_update : Tensor → Tensor → Param → Param → Tensor)
    (super_spike_update : Tensor → Param → Param → Param → Param → Tensor × Tensor)
    (x : Tensor) (stI : IFState) (stL : LIFState) :
    (IFNodes.forward if_update super_spike_update x stI).1 =
      (super_spike_update (if_update x stI.v)
        stI.thresh stI.reset stI.lbound stI.scale).1 ∧
    (IFNodes.forward if_update super_spike_update x stI).2.v =
      (super_spike_update (if_update x stI.v)
        stI.thresh stI.reset stI.lbound stI.scale).2 ∧
    (IFNodes.forward if_update super_spike_update x stI).2.base.s =
      (IFNodes.forward if_update super_spike_update x stI).1 ∧
    (LIFNodes.forward lif_update super_spike_update x stL).1 =
      (super_spike_update (lif_update x stL.v stL.tc_decay stL.rest)
        stL.thresh stL.reset stL.lbound stL.scale).1 ∧
    (LIFNodes.forward lif_update super_spike_update x stL).2.v =
      (super_spike_update (lif_update x stL.v stL.tc_decay stL.rest)
        stL.thresh stL.reset stL.lbound stL.scale).2 ∧
    (LIFNodes.forward lif_update super_spike_update x stL).2.base.s =
      (LIFNodes.forward lif_update super_spike_update x stL).1 :=
  ⟨rfl, rfl, rfl, rfl, rfl, rfl⟩

/-! ### C8 -/

/-- C8: default-constructed `IFNodes` stores `thresh = -52`, `reset = -65`,
`lbound = -100000` and `scale = 100`, and default-constructed `LIFNodes`
additionally stores `rest = -65` and `tc_decay = 100`; every one of these is
gradient-bearing except `scale`, which is not. -/
theorem claim8_default_parameters (n? : Option Nat) (shape? : Option (List Nat))
    (stI : IFState) (stL : LIFState)
    (hI : IFNodes.init n? shape? = Except.ok stI)
    (hL : LIFNodes.init n? shape? = Except.ok stL) :
    stI.thresh = { value := -52, requiresGrad := true } ∧
    stI.reset = { value := -65, requiresGrad := true } ∧
    stI.lbound = { value := -100000, requiresGrad := true } ∧
    stI.scale = { value := 100, requiresGrad := false } ∧
    stL.thresh = { value := -52, requiresGrad := true } ∧
    stL.reset = { value := -65, requiresGrad := true } ∧
    stL.lbound = { value := -100000, requiresGrad := true } ∧
    stL.rest = { value := -65, requiresGrad := true } ∧
    stL.tc_decay = { value := 100, requiresGrad := true } ∧
    stL.scale = { value := 100, requiresGrad := false } := by
  simp only [IFNodes.init] at hI
  simp only [LIFNodes.init] at hL
  split at hI
  · simp at hI
  · split at hL
    · simp at hL
    · simp only [Except.ok.injEq] at hI hL
      subst hI
      subst hL
      exact ⟨rfl, rfl, rfl, rfl, rfl, rfl, rfl, rfl, rfl, rfl⟩

/-- C8 witness: the default parameter set of the deferred-shape
constructions. -/
theorem claim8_witness :
    ifDeferred.thresh = { value := -52, requiresGrad := true } ∧
    ifDeferred.reset = { value := -65, requiresGrad := true } ∧
    ifDeferred.lbound = { value := -100000, requiresGrad := true } ∧
    ifDeferred.scale = { value := 100, requiresGrad := false } ∧
    lifDeferred.thresh = { value := -52, requiresGrad := true } ∧
    lifDeferred.reset = { value := -65, requiresGrad := true } ∧
    lifDeferred.lbound = { value := -100000, requiresGrad := true } ∧
    lifDeferred.rest = { value := -65, requiresGrad := true } ∧
    lifDeferred.tc_decay = { value := 100, requiresGrad := true } ∧
    lifDeferred.scale = { value := 100, requiresGrad := false } :=
  claim8_default_parameters none none ifDeferred lifDeferred rfl rfl

/-! ### C10 -/

/-- C10: for both dynamics models and arbitrary kernels, a per-timestep
update mutates only the voltage and spike buffers: the stored neuron count,
shape, timestep `dt`, and every parameter (`thresh`, `reset`, `lbound`,
`scale`, and for the leaky model `rest` and `tc_decay`) are unchanged. -/
theorem claim10_forward_frame
    (if_update : Tensor → Tensor → Tensor)
    (lif_update : Tensor → Tensor → Param → Param → Tensor)
    (super_spike_update : Tensor → Param → Param → Param → Param → Tensor × Tensor)
    (x : Tensor) (stI : IFState) (stL : LIFState) :
    ((IFNodes.forward if_update super_spike_update x stI).2.base.n = stI.base.n ∧
     (IFNodes.forward if_update super_spike_update x stI).2.base.shape = stI.base.shape ∧
     (IFNodes.forward if_update super_spike_update x stI).2.base.dt = stI.base.dt ∧
     (IFNodes.forward if_update super_spike_update x stI).2.thresh = stI.thresh ∧
     (IFNodes.forward if_update super_spike_update x stI).2.reset = stI.reset ∧
     (IFNodes.forward if_update super_spike_update x stI).2.lbound = stI.lbound ∧
     (IFNodes.forward if_update super_spike_update x stI).2.scale = stI.scale) ∧
    ((LIFNodes.forward lif_update super_spike_update x stL).2.base.n = stL.base.n ∧
     (LIFNodes.forward lif_update super_spike_update x stL).2.base.shape = stL.base.shape ∧
     (LIFNodes.forward lif_update super_spike_update x stL).2.base.dt = stL.base.dt ∧
     (LIFNodes.forward lif_update super_spike_update x stL).2.thresh = stL.thresh ∧
     (LIFNodes.forward lif_update super_spike_update x stL).2.reset = stL.reset ∧
     (LIFNodes.forward lif_update super_spike_update x stL).2.lbound = stL.lbound ∧
     (LIFNodes.forward lif_update super_spike_update x stL).2.rest = stL.rest ∧
     (LIFNodes.forward lif_update super_spike_update x stL).2.tc_decay = stL.tc_decay ∧
     (LIFNodes.forward lif_update super_spike_update x stL).2.scale = stL.scale) :=
  ⟨⟨rfl, rfl, rfl, rfl, rfl, rfl, rfl⟩, ⟨rfl, rfl, rfl, rfl, rfl, rfl, rfl, rfl, rfl⟩⟩

/-! ### C6 -/

/-- C6: state restoration on a snapshot lacking the `s` entry fails with the
missing-state error rather than proceeding; when the entry is present, the
shape-resync reset to the persisted spike tensor's shape always runs first,
and only then is the default attribute-by-attribute restoration applied. -/
theorem claim6_missing_state_and_order (sd : List (String × Tensor))
    (pfx : String) (st : IFState) :
    (lookupKey sd (pfx ++ "s") = none →
      IFNodes.loadFromStateDict sd pfx st = Except.error LoadError.missingState) ∧
    ∀ ts, lookupKey sd (pfx ++ "s") = some ts →
      IFNodes.loadFromStateDict sd pfx st =
        defaultLoad sd pfx (IFNodes.reset_ (some ts.shape) st) := by
  constructor
  · intro h
    simp only [IFNodes.loadFromStateDict, h]
  · intro ts h
    simp only [IFNodes.loadFromStateDict, h]

/-- C6 witness: an empty snapshot fails with the missing-state error; a
snapshot carrying an `s` entry is loaded through the resync reset first. -/
theorem claim6_witness :
    IFNodes.loadFromStateDict [] "" ifDeferred =
      Except.error LoadError.missingState ∧
    IFNodes.loadFromStateDict [("s", t2a)] "" ifDeferred =
      defaultLoad [("s", t2a)] "" (IFNodes.reset_ (some t2a.shape) ifDeferred) :=
  ⟨(claim6_missing_state_and_order [] "" ifDeferred).1 rfl,
   (claim6_missing_state_and_order [("s", t2a)] "" ifDeferred).2 t2a rfl⟩

/-! ### C2 -/

/-- C2: restoring a persisted snapshot whose `s` (and `v`) tensors have shape
`S` into a freshly constructed population with deferred shape first performs
the full reset to `S` and then the default restoration, yielding a population
whose stored shape equals `S` with no shape-mismatch failure. -/
theorem claim2_restore_shape_resync (sd : List (String × Tensor)) (pfx : String)
    (S : List Nat) (ts tv : Tensor) (st0 : IFState)
    (h0 : IFNodes.init none none = Except.ok st0)
    (hs : lookupKey sd (pfx ++ "s") = some ts) (hts : ts.shape = S)
    (hv : lookupKey sd (pfx ++ "v") = some tv) (htv : tv.shape = S) :
    Except.map (fun st' => st'.base.shape)
      (IFNodes.loadFromStateDict sd pfx st0) = Except.ok (some S) := by
  simp only [IFNodes.init, Nodes.init, Except.ok.injEq] at h0
  subst h0
  subst hts
  simp only [IFNodes.loadFromStateDict, hs, defaultLoad, hv, IFNodes.reset_,
    Nodes.reset_, zeros, onesLike, scalarMul, htv, and_self, if_true,
    Except.map]

/-- C2 witness: a concrete snapshot of shape `[2]` restored into the
deferred-shape default `IFNodes` population. -/
theorem claim2_witness :
    Except.map (fun st' => st'.base.shape)
      (IFNodes.loadFromStateDict [("s", t2a), ("v", t2a)] "" ifDeferred) =
      Except.ok (some [2]) :=
  claim2_restore_shape_resync [("s", t2a), ("v", t2a)] "" [2] t2a t2a
    ifDeferred rfl rfl rfl rfl rfl

end BindsNetSpec
